import Mathlib

/-!
Shallow embedding of the user-administration action layer of
`src/app/actions/user-management-actions.ts`.

Each action wraps one (or, for the bulk sync, N+1) calls to an external
identity/data service inside a `try/catch` and translates the outcome into a
uniform `ActionResult` record.  We embed the outcome of each external call as
an explicit value of type `SvcResp`:

  * `SvcResp.ok`        — the call completed and reported no error
                          (`error` destructured from the SDK response is null);
  * `SvcResp.err m`     — the call completed but the service reported the
                          domain error `m` (`error.message === m`);
  * `SvcResp.thrown m`  — the call threw an exception whose `.message` is `m`
                          (network/transport fault), which the surrounding
                          `try/catch` intercepts.

Each embedded action is a total function of its arguments and of the
responses of the calls it issues, mirroring the TypeScript control flow
branch by branch.  Where a frozen claim concerns the *request* an action
issues (the one-time-passcode create-user flag, the invite metadata), the
request is embedded as an explicit record and the action is parameterised by
a service function from requests to responses, so that the request the action
applies the service to is part of the definition itself.
-/

/-- Outcome of one awaited external SDK call, as observed by the caller's
`try`/`catch` and `error` destructuring. -/
inductive SvcResp where
  | ok : SvcResp
  | err (msg : String) : SvcResp
  | thrown (msg : String) : SvcResp
deriving DecidableEq

/-- Whether the call threw an exception (as opposed to completing, with or
without a service-reported error). -/
def SvcResp.isThrown : SvcResp → Bool
  | .thrown _ => true
  | _ => false

/-- `interface ActionResult` from the source: the uniform record every action
returns.  The optional `error?: string` field is an `Option String`. -/
structure ActionResult where
  success : Bool
  message : String
  error : Option String
deriving DecidableEq

/-- `process.env.NEXT_PUBLIC_SITE_URL || 'http://localhost:3000'`:
an unset variable is `none`; JavaScript `||` also treats the empty string as
falsy, so an empty value falls back to the default as well. -/
def siteUrl (env : Option String) : String :=
  match env with
  | none => "http://localhost:3000"
  | some s => if s = "" then "http://localhost:3000" else s

/-- `changeUserEmail(userId, newEmail)`:
`primary` is the outcome of `supabase.auth.admin.updateUserById(userId,
{email: newEmail})`, `mirror` the outcome of the follow-up
`supabase.from('profiles').update({email: newEmail}).eq('id', userId)`.
A service-reported `mirror` error is only logged; a `mirror` throw lands in
the outer `catch`.  The `catch` also receives a `primary` throw, before the
mirror call is made. -/
def changeUserEmail (userId newEmail : String) (primary mirror : SvcResp) :
    ActionResult :=
  match primary with
  | .thrown m =>
      ⟨false, "An unexpected error occurred while changing the email", some m⟩
  | .err m => ⟨false, "Failed to change user email", some m⟩
  | .ok =>
      match mirror with
      | .thrown m =>
          ⟨false, "An unexpected error occurred while changing the email",
            some m⟩
      | _ =>
          ⟨true, "Email successfully changed to " ++ newEmail ++
            ". User will receive a confirmation email.", none⟩

/-- `sendPasswordReset(email)`: `resp` is the outcome of
`supabase.auth.resetPasswordForEmail(email, {redirectTo: ...})`. -/
def sendPasswordReset (email : String) (resp : SvcResp) : ActionResult :=
  match resp with
  | .thrown m =>
      ⟨false, "An unexpected error occurred while sending password reset",
        some m⟩
  | .err m => ⟨false, "Failed to send password reset email", some m⟩
  | .ok => ⟨true, "Password reset link has been sent to " ++ email, none⟩

/-- The argument record of a `supabase.auth.signInWithOtp` call: the email and
the `options` object (`shouldCreateUser`, `emailRedirectTo`). -/
structure OtpRequest where
  email : String
  shouldCreateUser : Bool
  emailRedirectTo : String
deriving DecidableEq

/-- The request `requestReauthentication` passes to `signInWithOtp`:
`shouldCreateUser: false`, redirect to `/dashboard`. -/
def requestReauthenticationRequest (env : Option String) (email : String) :
    OtpRequest :=
  { email := email
    shouldCreateUser := false
    emailRedirectTo := siteUrl env ++ "/dashboard" }

/-- Translation of the `signInWithOtp` outcome into the result record inside
`requestReauthentication`. -/
def requestReauthenticationHandle (email : String) (resp : SvcResp) :
    ActionResult :=
  match resp with
  | .thrown m =>
      ⟨false,
        "An unexpected error occurred while sending reauthentication request",
        some m⟩
  | .err m => ⟨false, "Failed to send reauthentication link", some m⟩
  | .ok => ⟨true, "Reauthentication link has been sent to " ++ email, none⟩

/-- `requestReauthentication(email)`: issues one `signInWithOtp` call with
`shouldCreateUser: false` and translates its outcome.  `svc` is the external
one-time-passcode service. -/
def requestReauthentication (env : Option String)
    (svc : OtpRequest → SvcResp) (email : String) : ActionResult :=
  requestReauthenticationHandle email (svc (requestReauthenticationRequest env email))

/-- The request `sendMagicLink` passes to `signInWithOtp`:
`shouldCreateUser: true`, redirect to `/dashboard`. -/
def sendMagicLinkRequest (env : Option String) (email : String) : OtpRequest :=
  { email := email
    shouldCreateUser := true
    emailRedirectTo := siteUrl env ++ "/dashboard" }

/-- Translation of the `signInWithOtp` outcome into the result record inside
`sendMagicLink`. -/
def sendMagicLinkHandle (email : String) (resp : SvcResp) : ActionResult :=
  match resp with
  | .thrown m =>
      ⟨false, "An unexpected error occurred while sending magic link", some m⟩
  | .err m => ⟨false, "Failed to send magic link", some m⟩
  | .ok => ⟨true, "Magic link has been sent to " ++ email, none⟩

/-- `sendMagicLink(email)`: issues one `signInWithOtp` call with
`shouldCreateUser: true` and translates its outcome. -/
def sendMagicLink (env : Option String) (svc : OtpRequest → SvcResp)
    (email : String) : ActionResult :=
  sendMagicLinkHandle email (svc (sendMagicLinkRequest env email))

/-- The role union type `'client' | 'admin'` of the TypeScript source. -/
inductive Role where
  | client : Role
  | admin : Role
deriving DecidableEq

/-- The literal string of a role value. -/
def Role.toString : Role → String
  | .client => "client"
  | .admin => "admin"

/-- The argument record of `supabase.auth.admin.inviteUserByEmail(email, ...)`:
`data.role` (legacy user-level metadata), `app_metadata.role` (authoritative),
and the callback redirect. -/
structure InviteRequest where
  email : String
  dataRole : String
  appMetadataRole : String
  redirectTo : String
deriving DecidableEq

/-- The request `inviteUser` passes to `inviteUserByEmail`: the same `role`
literal is written to both `data.role` and `app_metadata.role`. -/
def inviteUserRequest (env : Option String) (email : String) (role : Role) :
    InviteRequest :=
  { email := email
    dataRole := role.toString
    appMetadataRole := role.toString
    redirectTo := siteUrl env ++ "/auth/callback" }

/-- Translation of the `inviteUserByEmail` outcome inside `inviteUser`. -/
def inviteUserHandle (email : String) (resp : SvcResp) : ActionResult :=
  match resp with
  | .thrown m =>
      ⟨false, "An unexpected error occurred while sending invitation", some m⟩
  | .err m => ⟨false, "Failed to send invitation", some m⟩
  | .ok => ⟨true, "Invitation sent successfully to " ++ email, none⟩

/-- `inviteUser(email, role)`: issues one `inviteUserByEmail` call carrying the
role in both metadata locations and translates its outcome. -/
def inviteUser (env : Option String) (svc : InviteRequest → SvcResp)
    (email : String) (role : Role) : ActionResult :=
  inviteUserHandle email (svc (inviteUserRequest env email role))

/-- `inviteUser(email)` called without a role argument: the TypeScript
parameter default `role: 'client' | 'admin' = 'client'` supplies
`Role.client`. -/
def inviteUserNoRole (env : Option String) (svc : InviteRequest → SvcResp)
    (email : String) : ActionResult :=
  inviteUser env svc email Role.client

/-- `deleteUser(userId)`: `resp` is the outcome of
`supabase.auth.admin.deleteUser(userId)`. -/
def deleteUser (userId : String) (resp : SvcResp) : ActionResult :=
  match resp with
  | .thrown m =>
      ⟨false, "An unexpected error occurred while deleting user", some m⟩
  | .err m => ⟨false, "Failed to delete user account", some m⟩
  | .ok => ⟨true, "User account has been successfully deleted", none⟩

/-- `updateUserAppMetadata(userId, role)`: `resp` is the outcome of
`supabase.auth.admin.updateUserById(userId, {app_metadata: {role}})`. -/
def updateUserAppMetadata (userId : String) (role : Role) (resp : SvcResp) :
    ActionResult :=
  match resp with
  | .thrown m =>
      ⟨false, "An unexpected error occurred while updating user app_metadata",
        some m⟩
  | .err m => ⟨false, "Failed to update user app_metadata", some m⟩
  | .ok =>
      ⟨true, "User app_metadata successfully updated with role: " ++
        role.toString, none⟩

/-- One row of the `profiles` table as projected by `.select('id, role')`. -/
structure Profile where
  id : String
  role : String
deriving DecidableEq

/-- Outcome of the initial `supabase.from('profiles').select('id, role')`
read: `data` may be a row list or null, `error` a reported error; the call
may also throw into the outer `catch`. -/
inductive ReadResp where
  | ok (rows : Option (List Profile)) : ReadResp
  | err (msg : String) : ReadResp
  | thrown (msg : String) : ReadResp
deriving DecidableEq

/-- Loop state of the sync loop: `successCount`, `errorCount`, the accumulated
`errors` strings, plus the trace `calls` of the per-user update calls issued
so far (one entry per `updateUserById` invocation, in order). -/
structure SyncAcc where
  successCount : Nat
  errorCount : Nat
  errors : List String
  calls : List Profile
deriving DecidableEq

/-- One iteration of the `for (const profile of profiles)` loop in
`syncAllUsersAppMetadata`: issue `updateUserById(profile.id,
{app_metadata: {role: profile.role}})` and classify its outcome.  A reported
error and a thrown exception both increment `errorCount` (with differing
accumulated strings); either way the loop continues. -/
def syncStep (upd : Profile → SvcResp) (acc : SyncAcc) (p : Profile) :
    SyncAcc :=
  match upd p with
  | .ok =>
      { acc with successCount := acc.successCount + 1
                 calls := acc.calls ++ [p] }
  | .err m =>
      { acc with errorCount := acc.errorCount + 1
                 errors := acc.errors ++
                   ["Error updating user " ++ p.id ++ ": " ++ m]
                 calls := acc.calls ++ [p] }
  | .thrown m =>
      { acc with errorCount := acc.errorCount + 1
                 errors := acc.errors ++
                   ["Exception updating user " ++ p.id ++ ": " ++ m]
                 calls := acc.calls ++ [p] }

/-- `syncAllUsersAppMetadata()` together with the trace of the per-user
update calls it issues.  `read` is the outcome of the profiles read, `upd`
the per-user metadata-update service.  Mirrors the source: a read error or a
read throw is fatal; null or empty `data` is the empty-set success; otherwise
the loop runs over every row and the final result is always a success record
reporting the two counters. -/
def syncAllUsersAppMetadataT (read : ReadResp) (upd : Profile → SvcResp) :
    ActionResult × List Profile :=
  match read with
  | .thrown m =>
      (⟨false, "An unexpected error occurred while syncing user app_metadata",
        some m⟩, [])
  | .err m => (⟨false, "Failed to fetch profiles", some m⟩, [])
  | .ok rows =>
      let profiles := rows.getD []
      if profiles.isEmpty then
        (⟨true, "No profiles found to sync", none⟩, [])
      else
        let acc := profiles.foldl (syncStep upd) ⟨0, 0, [], []⟩
        (⟨true, "Synced app_metadata for " ++ toString acc.successCount ++
          " users. " ++ toString acc.errorCount ++ " errors.", none⟩,
          acc.calls)

/-- `syncAllUsersAppMetadata()`: the returned `ActionResult` alone. -/
def syncAllUsersAppMetadata (read : ReadResp) (upd : Profile → SvcResp) :
    ActionResult :=
  (syncAllUsersAppMetadataT read upd).1

/-- Well-formedness of a returned record: a failure result carries a
populated `error` field, and the `message` is non-empty human-readable text
whatever the `success` flag. -/
def ResultOk (r : ActionResult) : Prop :=
  (r.success = false → r.error ≠ none) ∧ r.message ≠ ""

/-! ## Theorems for the frozen claims -/

/-- Helper: appending to a non-empty string yields a non-empty string. -/
theorem append_ne_empty (a b : String) (h : a ≠ "") : a ++ b ≠ "" := by
  intro hc
  apply h
  apply String.ext
  have hd : a.data ++ b.data = ([] : List Char) := by
    rw [← String.data_append, hc]
  have h1 := (List.append_eq_nil.mp hd).1
  simpa using h1

/-- Claim C5: for `changeUserEmail`, whenever the primary identity-provider
email update succeeds but the secondary profile-table mirror update reports an
error, the overall result is still `success = true`, with no `error` field:
the mirror failure is absorbed. -/
theorem changeUserEmail_mirror_error_absorbed :
    ∀ (uid em m : String),
      (changeUserEmail uid em .ok (.err m)).success = true ∧
      (changeUserEmail uid em .ok (.err m)).error = none := by
  intro uid em m
  exact ⟨rfl, rfl⟩

/-- Claim C4: for `syncAllUsersAppMetadata`, if the initial profiles read
reports an error, the operation returns `success = false` with `error` equal
to the read error text (and the fixed fetch-failure message), and the trace of
per-user metadata-update calls is empty: no update is issued. -/
theorem syncAllUsersAppMetadata_read_error_fatal :
    ∀ (m : String) (upd : Profile → SvcResp),
      syncAllUsersAppMetadataT (.err m) upd =
        (⟨false, "Failed to fetch profiles", some m⟩, []) := by
  intro m upd
  rfl

/-- Claim C7: for `syncAllUsersAppMetadata`, when the profiles read succeeds
with a null row set or with zero rows, the operation returns `success = true`
with message exactly `"No profiles found to sync"` and the trace of per-user
update calls is empty. -/
theorem syncAllUsersAppMetadata_empty_rows :
    ∀ (upd : Profile → SvcResp),
      syncAllUsersAppMetadataT (.ok none) upd =
        (⟨true, "No profiles found to sync", none⟩, []) ∧
      syncAllUsersAppMetadataT (.ok (some [])) upd =
        (⟨true, "No profiles found to sync", none⟩, []) := by
  intro upd
  exact ⟨rfl, rfl⟩

/-- Claim C8: `inviteUser` called without a role argument uses role
`"client"` (embedded as `inviteUserNoRole`, the TypeScript parameter
default), and every call passes the same role literal to both metadata
locations of the invite request, `data.role` and `app_metadata.role`. -/
theorem inviteUser_role_default_and_duplication :
    (∀ (env : Option String) (svc : InviteRequest → SvcResp) (em : String),
      inviteUserNoRole env svc em = inviteUser env svc em Role.client) ∧
    (∀ (env : Option String) (em : String) (r : Role),
      (inviteUserRequest env em r).dataRole = r.toString ∧
      (inviteUserRequest env em r).appMetadataRole = r.toString) ∧
    (∀ (env : Option String) (em : String),
      (inviteUserRequest env em Role.client).dataRole = "client" ∧
      (inviteUserRequest env em Role.client).appMetadataRole = "client") := by
  refine ⟨fun env svc em => rfl, fun env em r => ⟨rfl, rfl⟩,
    fun env em => ⟨rfl, rfl⟩⟩

/-- Claim C6: `requestReauthentication` always issues its `signInWithOtp`
call with the create-user flag `false`, `sendMagicLink` always issues it with
the flag `true`, and for every input email the flag is the sole behavioral
difference between the two one-time-passcode flows: the two requests agree on
the email and the redirect target, and on identical service responses the two
operations classify the outcome identically (same `success`, same `error`;
the human-readable confirmation phrases are operation-specific as described
elsewhere in the contract). -/
theorem otp_flows_differ_only_in_create_flag :
    (∀ (env : Option String) (em : String),
      (requestReauthenticationRequest env em).shouldCreateUser = false) ∧
    (∀ (env : Option String) (em : String),
      (sendMagicLinkRequest env em).shouldCreateUser = true) ∧
    (∀ (env : Option String) (em : String),
      (requestReauthenticationRequest env em).email =
        (sendMagicLinkRequest env em).email ∧
      (requestReauthenticationRequest env em).emailRedirectTo =
        (sendMagicLinkRequest env em).emailRedirectTo) ∧
    (∀ (env : Option String) (svc : OtpRequest → SvcResp) (em : String),
      requestReauthentication env svc em =
        requestReauthenticationHandle em
          (svc (requestReauthenticationRequest env em)) ∧
      sendMagicLink env svc em =
        sendMagicLinkHandle em (svc (sendMagicLinkRequest env em))) ∧
    (∀ (em : String) (r : SvcResp),
      (requestReauthenticationHandle em r).success =
        (sendMagicLinkHandle em r).success ∧
      (requestReauthenticationHandle em r).error =
        (sendMagicLinkHandle em r).error) := by
  refine ⟨fun env em => rfl, fun env em => rfl, fun env em => ⟨rfl, rfl⟩,
    fun env svc em => ⟨rfl, rfl⟩, ?_⟩
  intro em r
  cases r <;> exact ⟨rfl, rfl⟩

/-- Helper: the sync loop adds exactly one call per row and classifies each
row into exactly one of the two counters, so the counter sum grows by the
row count and the call trace extends by the rows in order. -/
theorem syncStep_foldl_invariant (upd : Profile → SvcResp) :
    ∀ (ps : List Profile) (acc : SyncAcc),
      (ps.foldl (syncStep upd) acc).successCount +
          (ps.foldl (syncStep upd) acc).errorCount =
        acc.successCount + acc.errorCount + ps.length ∧
      (ps.foldl (syncStep upd) acc).calls = acc.calls ++ ps := by
  intro ps
  induction ps with
  | nil => intro acc; simp
  | cons p t ih =>
      intro acc
      simp only [List.foldl_cons, List.length_cons]
      obtain ⟨h1, h2⟩ := ih (syncStep upd acc p)
      refine ⟨?_, ?_⟩
      · rw [h1]
        cases hp : upd p <;> simp [syncStep, hp] <;> omega
      · rw [h2]
        cases hp : upd p <;> simp [syncStep, hp]

/-- Claim C3: for `syncAllUsersAppMetadata` on profile rows
`[{id:"a",role:"admin"}, {id:"b",role:"client"}]` where the per-user update
fails (with any reported error text) for `"a"` and succeeds for `"b"`, an
update is attempted for both users in order (no early abort), and the result
is `success = true` with message exactly
`"Synced app_metadata for 1 users. 1 errors."`; more generally, once the read
step succeeds the operation returns `success = true` whatever the per-user
update outcomes. -/
theorem syncAllUsersAppMetadata_continues_after_item_failure :
    (∀ (m : String),
      syncAllUsersAppMetadataT (.ok (some [⟨"a", "admin"⟩, ⟨"b", "client"⟩]))
          (fun p => if p.id = "a" then .err m else .ok) =
        (⟨true, "Synced app_metadata for 1 users. 1 errors.", none⟩,
          [⟨"a", "admin"⟩, ⟨"b", "client"⟩])) ∧
    (∀ (rows : Option (List Profile)) (upd : Profile → SvcResp),
      (syncAllUsersAppMetadata (.ok rows) upd).success = true) := by
  constructor
  · intro m
    simp [syncAllUsersAppMetadataT, syncStep]
    rfl
  · intro rows upd
    cases rows with
    | none => rfl
    | some ps =>
        simp only [syncAllUsersAppMetadata, syncAllUsersAppMetadataT,
          Option.getD_some]
        split <;> rfl

/-- Claim C10: in `syncAllUsersAppMetadata`, when the profiles read succeeds
with a non-empty row list, exactly one metadata-update call is attempted per
row (the call trace is exactly the row list, in order), each iteration
increments exactly one of the two counters whether the call reports an error
or throws, and the counts reported in the returned message sum to the row
count. -/
theorem syncAllUsersAppMetadata_counts_sum_to_rows :
    ∀ (ps : List Profile) (upd : Profile → SvcResp), ps ≠ [] →
      ∃ s e : Nat, s + e = ps.length ∧
        syncAllUsersAppMetadataT (.ok (some ps)) upd =
          (⟨true, "Synced app_metadata for " ++ toString s ++ " users. " ++
            toString e ++ " errors.", none⟩, ps) := by
  intro ps upd hne
  have hempty : ps.isEmpty = false := by
    cases ps with
    | nil => exact absurd rfl hne
    | cons p t => rfl
  obtain ⟨h1, h2⟩ := syncStep_foldl_invariant upd ps ⟨0, 0, [], []⟩
  refine ⟨(ps.foldl (syncStep upd) ⟨0, 0, [], []⟩).successCount,
    (ps.foldl (syncStep upd) ⟨0, 0, [], []⟩).errorCount, ?_, ?_⟩
  · simpa using h1
  · simp only [syncAllUsersAppMetadataT, Option.getD_some, hempty,
      Bool.false_eq_true, if_false]
    rw [h2]
    rfl

/-- Witness for C10 at the one-row list `[{id:"a", role:"admin"}]` with an
always-succeeding update service. -/
theorem syncAllUsersAppMetadata_counts_sum_to_rows_witness :
    ∃ s e : Nat, s + e = ([⟨"a", "admin"⟩] : List Profile).length ∧
      syncAllUsersAppMetadataT (.ok (some [⟨"a", "admin"⟩])) (fun _ => .ok) =
        (⟨true, "Synced app_metadata for " ++ toString s ++ " users. " ++
          toString e ++ " errors.", none⟩, [⟨"a", "admin"⟩]) :=
  syncAllUsersAppMetadata_counts_sum_to_rows [⟨"a", "admin"⟩] (fun _ => .ok)
    (by decide)

/-- Claim C1: for every operation in the action layer and every completed
(non-throwing) response of the external service, the primary call reporting
no error yields `success = true` with the `error` field absent, and the
primary call reporting an error `m` yields `success = false` with
`error = some m`.  For `changeUserEmail` the non-throwing mirror outcomes are
enumerated explicitly; for the operations parameterised by a service
function, the operation is equated with its outcome translation applied to
the service's response to the issued request, and the translation is pinned
on the `ok` and `err` responses. -/
theorem service_outcome_determines_result :
    (∀ (uid em : String),
      (changeUserEmail uid em .ok .ok).success = true ∧
      (changeUserEmail uid em .ok .ok).error = none) ∧
    (∀ (uid em m2 : String),
      (changeUserEmail uid em .ok (.err m2)).success = true ∧
      (changeUserEmail uid em .ok (.err m2)).error = none) ∧
    (∀ (uid em m : String) (mirror : SvcResp),
      (changeUserEmail uid em (.err m) mirror).success = false ∧
      (changeUserEmail uid em (.err m) mirror).error = some m) ∧
    (∀ (em : String), (sendPasswordReset em .ok).success = true ∧
      (sendPasswordReset em .ok).error = none) ∧
    (∀ (em m : String), (sendPasswordReset em (.err m)).success = false ∧
      (sendPasswordReset em (.err m)).error = some m) ∧
    (∀ (env : Option String) (svc : OtpRequest → SvcResp) (em : String),
      requestReauthentication env svc em =
        requestReauthenticationHandle em
          (svc (requestReauthenticationRequest env em)) ∧
      sendMagicLink env svc em =
        sendMagicLinkHandle em (svc (sendMagicLinkRequest env em))) ∧
    (∀ (em : String), (requestReauthenticationHandle em .ok).success = true ∧
      (requestReauthenticationHandle em .ok).error = none) ∧
    (∀ (em m : String),
      (requestReauthenticationHandle em (.err m)).success = false ∧
      (requestReauthenticationHandle em (.err m)).error = some m) ∧
    (∀ (em : String), (sendMagicLinkHandle em .ok).success = true ∧
      (sendMagicLinkHandle em .ok).error = none) ∧
    (∀ (em m : String), (sendMagicLinkHandle em (.err m)).success = false ∧
      (sendMagicLinkHandle em (.err m)).error = some m) ∧
    (∀ (env : Option String) (svc : InviteRequest → SvcResp) (em : String)
        (r : Role),
      inviteUser env svc em r =
        inviteUserHandle em (svc (inviteUserRequest env em r))) ∧
    (∀ (em : String), (inviteUserHandle em .ok).success = true ∧
      (inviteUserHandle em .ok).error = none) ∧
    (∀ (em m : String), (inviteUserHandle em (.err m)).success = false ∧
      (inviteUserHandle em (.err m)).error = some m) ∧
    (∀ (uid : String), (deleteUser uid .ok).success = true ∧
      (deleteUser uid .ok).error = none) ∧
    (∀ (uid m : String), (deleteUser uid (.err m)).success = false ∧
      (deleteUser uid (.err m)).error = some m) ∧
    (∀ (uid : String) (r : Role),
      (updateUserAppMetadata uid r .ok).success = true ∧
      (updateUserAppMetadata uid r .ok).error = none) ∧
    (∀ (uid : String) (r : Role) (m : String),
      (updateUserAppMetadata uid r (.err m)).success = false ∧
      (updateUserAppMetadata uid r (.err m)).error = some m) := by
  exact ⟨fun uid em => ⟨rfl, rfl⟩, fun uid em m2 => ⟨rfl, rfl⟩,
    fun uid em m mirror => ⟨rfl, rfl⟩, fun em => ⟨rfl, rfl⟩,
    fun em m => ⟨rfl, rfl⟩, fun env svc em => ⟨rfl, rfl⟩,
    fun em => ⟨rfl, rfl⟩, fun em m => ⟨rfl, rfl⟩, fun em => ⟨rfl, rfl⟩,
    fun em m => ⟨rfl, rfl⟩, fun env svc em r => rfl, fun em => ⟨rfl, rfl⟩,
    fun em m => ⟨rfl, rfl⟩, fun uid => ⟨rfl, rfl⟩, fun uid m => ⟨rfl, rfl⟩,
    fun uid r => ⟨rfl, rfl⟩, fun uid r m => ⟨rfl, rfl⟩⟩

/-- Claim C2: no action ever raises.  Every embedded action is a total
function into `ActionResult`, and on every thrown-exception path — a throw of
the primary call, of the mirror call, or of the profiles read — the operation
returns the structured record with `success = false`, the operation's generic
unexpected-error message, and `error` set to the exception text.  The
service-parameterised operations are equated with their total outcome
translations, which are pinned on the thrown response. -/
theorem actions_never_raise :
    (∀ (uid em m : String) (mirror : SvcResp),
      changeUserEmail uid em (.thrown m) mirror =
        ⟨false, "An unexpected error occurred while changing the email",
          some m⟩) ∧
    (∀ (uid em m : String),
      changeUserEmail uid em .ok (.thrown m) =
        ⟨false, "An unexpected error occurred while changing the email",
          some m⟩) ∧
    (∀ (em m : String),
      sendPasswordReset em (.thrown m) =
        ⟨false, "An unexpected error occurred while sending password reset",
          some m⟩) ∧
    (∀ (env : Option String) (svc : OtpRequest → SvcResp) (em : String),
      requestReauthentication env svc em =
        requestReauthenticationHandle em
          (svc (requestReauthenticationRequest env em)) ∧
      sendMagicLink env svc em =
        sendMagicLinkHandle em (svc (sendMagicLinkRequest env em))) ∧
    (∀ (em m : String),
      requestReauthenticationHandle em (.thrown m) =
        ⟨false,
          "An unexpected error occurred while sending reauthentication request",
          some m⟩) ∧
    (∀ (em m : String),
      sendMagicLinkHandle em (.thrown m) =
        ⟨false, "An unexpected error occurred while sending magic link",
          some m⟩) ∧
    (∀ (env : Option String) (svc : InviteRequest → SvcResp) (em : String)
        (r : Role),
      inviteUser env svc em r =
        inviteUserHandle em (svc (inviteUserRequest env em r))) ∧
    (∀ (em m : String),
      inviteUserHandle em (.thrown m) =
        ⟨false, "An unexpected error occurred while sending invitation",
          some m⟩) ∧
    (∀ (uid m : String),
      deleteUser uid (.thrown m) =
        ⟨false, "An unexpected error occurred while deleting user", some m⟩) ∧
    (∀ (uid : String) (r : Role) (m : String),
      updateUserAppMetadata uid r (.thrown m) =
        ⟨false,
          "An unexpected error occurred while updating user app_metadata",
          some m⟩) ∧
    (∀ (m : String) (upd : Profile → SvcResp),
      syncAllUsersAppMetadataT (.thrown m) upd =
        (⟨false,
          "An unexpected error occurred while syncing user app_metadata",
          some m⟩, [])) := by
  exact ⟨fun uid em m mirror => rfl, fun uid em m => rfl, fun em m => rfl,
    fun env svc em => ⟨rfl, rfl⟩, fun em m => rfl, fun em m => rfl,
    fun env svc em r => rfl, fun em m => rfl, fun uid m => rfl,
    fun uid r m => rfl, fun m upd => rfl⟩

/-- Claim C9: for every operation and every return path — service-reported
error branches and caught-exception branches alike — a result with
`success = false` carries a populated `error` field, and every result carries
a non-empty human-readable `message`, regardless of `success`. -/
theorem all_results_well_formed :
    (∀ (uid em : String) (primary mirror : SvcResp),
      ResultOk (changeUserEmail uid em primary mirror)) ∧
    (∀ (em : String) (r : SvcResp), ResultOk (sendPasswordReset em r)) ∧
    (∀ (env : Option String) (svc : OtpRequest → SvcResp) (em : String),
      ResultOk (requestReauthentication env svc em)) ∧
    (∀ (env : Option String) (svc : OtpRequest → SvcResp) (em : String),
      ResultOk (sendMagicLink env svc em)) ∧
    (∀ (env : Option String) (svc : InviteRequest → SvcResp) (em : String)
        (role : Role), ResultOk (inviteUser env svc em role)) ∧
    (∀ (uid : String) (r : SvcResp), ResultOk (deleteUser uid r)) ∧
    (∀ (uid : String) (role : Role) (r : SvcResp),
      ResultOk (updateUserAppMetadata uid role r)) ∧
    (∀ (read : ReadResp) (upd : Profile → SvcResp),
      ResultOk (syncAllUsersAppMetadata read upd)) := by
  refine ⟨?_, ?_, ?_, ?_, ?_, ?_, ?_, ?_⟩
  · intro uid em primary mirror
    cases primary with
    | thrown m =>
        exact ⟨fun _ h => Option.noConfusion h, by
          show "An unexpected error occurred while changing the email" ≠ ""
          decide⟩
    | err m =>
        exact ⟨fun _ h => Option.noConfusion h, by
          show "Failed to change user email" ≠ ""
          decide⟩
    | ok =>
        cases mirror with
        | thrown m =>
            exact ⟨fun _ h => Option.noConfusion h, by
              show "An unexpected error occurred while changing the email" ≠ ""
              decide⟩
        | ok =>
            exact ⟨fun h => Bool.noConfusion h,
              append_ne_empty _ _ (append_ne_empty _ _ (by decide))⟩
        | err m2 =>
            exact ⟨fun h => Bool.noConfusion h,
              append_ne_empty _ _ (append_ne_empty _ _ (by decide))⟩
  · intro em r
    cases r with
    | thrown m =>
        exact ⟨fun _ h => Option.noConfusion h, by
          show "An unexpected error occurred while sending password reset" ≠ ""
          decide⟩
    | err m =>
        exact ⟨fun _ h => Option.noConfusion h, by
          show "Failed to send password reset email" ≠ ""
          decide⟩
    | ok => exact ⟨fun h => Bool.noConfusion h, append_ne_empty _ _ (by decide)⟩
  · intro env svc em
    cases hr : svc (requestReauthenticationRequest env em) with
    | thrown m =>
        exact ⟨fun _ h => by
            simp [requestReauthentication, requestReauthenticationHandle, hr]
              at h,
          by simp [requestReauthentication, requestReauthenticationHandle, hr]⟩
    | err m =>
        exact ⟨fun _ h => by
            simp [requestReauthentication, requestReauthenticationHandle, hr]
              at h,
          by simp [requestReauthentication, requestReauthenticationHandle, hr]⟩
    | ok =>
        refine ⟨fun h => ?_, ?_⟩
        · simp [requestReauthentication, requestReauthenticationHandle, hr]
            at h
        · simp only [requestReauthentication, requestReauthenticationHandle,
            hr]
          exact append_ne_empty _ _ (by decide)
  · intro env svc em
    cases hr : svc (sendMagicLinkRequest env em) with
    | thrown m =>
        exact ⟨fun _ h => by
            simp [sendMagicLink, sendMagicLinkHandle, hr] at h,
          by simp [sendMagicLink, sendMagicLinkHandle, hr]⟩
    | err m =>
        exact ⟨fun _ h => by
            simp [sendMagicLink, sendMagicLinkHandle, hr] at h,
          by simp [sendMagicLink, sendMagicLinkHandle, hr]⟩
    | ok =>
        refine ⟨fun h => ?_, ?_⟩
        · simp [sendMagicLink, sendMagicLinkHandle, hr] at h
        · simp only [sendMagicLink, sendMagicLinkHandle, hr]
          exact append_ne_empty _ _ (by decide)
  · intro env svc em role
    cases hr : svc (inviteUserRequest env em role) with
    | thrown m =>
        exact ⟨fun _ h => by simp [inviteUser, inviteUserHandle, hr] at h,
          by simp [inviteUser, inviteUserHandle, hr]⟩
    | err m =>
        exact ⟨fun _ h => by simp [inviteUser, inviteUserHandle, hr] at h,
          by simp [inviteUser, inviteUserHandle, hr]⟩
    | ok =>
        refine ⟨fun h => ?_, ?_⟩
        · simp [inviteUser, inviteUserHandle, hr] at h
        · simp only [inviteUser, inviteUserHandle, hr]
          exact append_ne_empty _ _ (by decide)
  · intro uid r
    cases r with
    | thrown m =>
        exact ⟨fun _ h => Option.noConfusion h, by
          show "An unexpected error occurred while deleting user" ≠ ""
          decide⟩
    | err m =>
        exact ⟨fun _ h => Option.noConfusion h, by
          show "Failed to delete user account" ≠ ""
          decide⟩
    | ok =>
        exact ⟨fun h => Bool.noConfusion h, by
          show "User account has been successfully deleted" ≠ ""
          decide⟩
  · intro uid role r
    cases r with
    | thrown m =>
        exact ⟨fun _ h => Option.noConfusion h, by
          show "An unexpected error occurred while updating user app_metadata"
            ≠ ""
          decide⟩
    | err m =>
        exact ⟨fun _ h => Option.noConfusion h, by
          show "Failed to update user app_metadata" ≠ ""
          decide⟩
    | ok => exact ⟨fun h => Bool.noConfusion h, append_ne_empty _ _ (by decide)⟩
  · intro read upd
    cases read with
    | thrown m =>
        exact ⟨fun _ h => Option.noConfusion h, by
          show "An unexpected error occurred while syncing user app_metadata"
            ≠ ""
          decide⟩
    | err m =>
        exact ⟨fun _ h => Option.noConfusion h, by
          show "Failed to fetch profiles" ≠ ""
          decide⟩
    | ok rows =>
        cases rows with
        | none =>
            exact ⟨fun h => Bool.noConfusion h, by
              show "No profiles found to sync" ≠ ""
              decide⟩
        | some ps =>
            cases ps with
            | nil =>
                exact ⟨fun h => Bool.noConfusion h, by
                  show "No profiles found to sync" ≠ ""
                  decide⟩
            | cons p t =>
                refine ⟨fun h => Bool.noConfusion h, ?_⟩
                exact append_ne_empty _ _ (append_ne_empty _ _
                  (append_ne_empty _ _ (append_ne_empty _ _ (by decide))))

/-- Witness for C9: at concrete inputs, the failure result of `deleteUser`
has its `success = false` hypothesis discharged and a populated `error`
field, and the success result of `changeUserEmail` has a non-empty message. -/
theorem all_results_well_formed_witness :
    (deleteUser "u1" (.err "not found")).error ≠ none ∧
    (changeUserEmail "u1" "a@b.c" .ok .ok).message ≠ "" :=
  ⟨(all_results_well_formed.2.2.2.2.2.1 "u1" (.err "not found")).1 rfl,
    (all_results_well_formed.1 "u1" "a@b.c" .ok .ok).2⟩
